import Mathlib

/-!
Shallow embedding of the 15-minute breakout trading bot's core:
the capital ledger and position sizer (src/core/risk_manager.py),
the trade lifecycle controller (src/core/trade_manager.py), and the
per-bar control flow of the main loop (src/main.py, process_candle_data).

Prices and capital are modelled as rationals; quantities as integers
(Python ints).  Order placement at the execution venue can fail; it is
modelled by a boolean parameter saying whether the synchronous
place_order call succeeds.  Logging, Telegram notification and CSV
logging are external effects with no bearing on controller state and
are omitted, except that exits additionally return the exit event
(timestamp, price, reason) that the code would log.
-/

namespace Breakout

/-- The strategy/config parameters from src/config.py that the core reads.
TARGET_RISK_REWARD is the source's TARGET_RISK_REWARD_RATIO (5R target). -/
structure Config where
  RISK_PER_TRADE_PERCENT : ℚ
  MAX_CAPITAL_ALLOCATION_PERCENT : ℚ
  TARGET_RISK_REWARD : ℚ
  NIFTY_LOT_SIZE : ℤ
  MAX_DAILY_DRAWDOWN_R : ℚ
  deriving DecidableEq

/-- The values in src/config.py. -/
def defaultConfig : Config :=
  { RISK_PER_TRADE_PERCENT := 2
    MAX_CAPITAL_ALLOCATION_PERCENT := 50
    TARGET_RISK_REWARD := 5
    NIFTY_LOT_SIZE := 50
    MAX_DAILY_DRAWDOWN_R := -(5/2) }

/-- State of RiskManager (src/core/risk_manager.py): current capital and
the trailing equity high (the spec's high-water capital). -/
structure RiskManager where
  current_capital : ℚ
  trailing_equity_high : ℚ
  deriving DecidableEq

/-- RiskManager.__init__: both fields start at the initial capital. -/
def RiskManager.init (initial_capital : ℚ) : RiskManager :=
  { current_capital := initial_capital, trailing_equity_high := initial_capital }

/-- RiskManager.update_capital: sets current capital; the trailing equity
high only moves up, never down. -/
def update_capital (rm : RiskManager) (new_capital : ℚ) : RiskManager :=
  { current_capital := new_capital
    trailing_equity_high :=
      if new_capital > rm.trailing_equity_high then new_capital
      else rm.trailing_equity_high }

/-- RiskManager.calculate_quantity: risk-budget sizing off the trailing
equity high, capped by a capital-allocation ceiling off current capital,
floored to a whole number of lots.  math.floor on Python floats is the
floor toward negative infinity, matching Int.floor on ℚ. -/
def calculate_quantity (cfg : Config) (rm : RiskManager)
    (entry_price sl_price : ℚ) : ℤ :=
  if entry_price ≤ sl_price then 0
  else
    let capital_for_risk := rm.trailing_equity_high
    let risk_amount_per_trade := capital_for_risk * (cfg.RISK_PER_TRADE_PERCENT / 100)
    let sl_distance_per_share := entry_price - sl_price
    if sl_distance_per_share ≤ 0 then 0
    else
      let quantity_by_risk := risk_amount_per_trade / sl_distance_per_share
      let max_capital_for_trade :=
        rm.current_capital * (cfg.MAX_CAPITAL_ALLOCATION_PERCENT / 100)
      let quantity_by_capital := max_capital_for_trade / entry_price
      let final_quantity := min quantity_by_risk quantity_by_capital
      let lot_size := cfg.NIFTY_LOT_SIZE
      if lot_size > 0 then ⌊final_quantity / (lot_size : ℚ)⌋ * lot_size else 0

/-- The active_trade dict built in TradeManager.enter_trade
(src/core/trade_manager.py): the spec's ActivePosition.  The order id
returned by the venue is irrelevant to control flow and omitted. -/
structure ActiveTrade where
  entry_price : ℚ
  initial_sl : ℚ
  current_sl : ℚ
  target_price : ℚ
  quantity : ℤ
  initial_risk_per_share : ℚ
  timestamp : ℕ
  deriving DecidableEq

/-- Exit reasons used by the code (string literals in trade_manager.py).
SL_HIT is the spec's STOP_HIT. -/
inductive ExitReason where
  | SL_HIT
  | GAP_DOWN_EXIT
  deriving DecidableEq

/-- The observable exit record (timestamp, price, reason) that
exit_trade logs on a successful exit. -/
structure ExitEvent where
  timestamp : ℕ
  price : ℚ
  reason : ExitReason
  deriving DecidableEq

/-- A 15-minute OHLC bar as consumed by the trade manager; only the
fields the manager reads are kept. -/
structure Candle where
  timestamp : ℕ
  low : ℚ
  high : ℚ
  deriving DecidableEq

/-- A breakout signal from the strategy: the fields enter_trade reads. -/
structure Signal where
  timestamp : ℕ
  entry_price : ℚ
  sl_price : ℚ
  deriving DecidableEq

/-- TradeManager state (src/core/trade_manager.py) together with the
RiskManager it owns a reference to.  The strategy, logger and telegram
collaborators are external and carry no controller state. -/
structure TradeManager where
  active_trade : Option ActiveTrade
  trailing_sl_activated : Bool
  daily_r_pnl : ℚ
  trading_stopped_for_day : Bool
  risk : RiskManager
  deriving DecidableEq

/-- TradeManager.day_reset: clears the position, the trailing-stop flag,
the daily R-PnL and the daily halt flag.  The RiskManager is not touched. -/
def day_reset (tm : TradeManager) : TradeManager :=
  { tm with
    active_trade := none
    trailing_sl_activated := false
    daily_r_pnl := 0
    trading_stopped_for_day := false }

/-- TradeManager.enter_trade.  entry_order_ok models whether the
synchronous place_order call at the venue succeeds; on failure the
entry is aborted with no state change (the opportunity is dropped). -/
def enter_trade (cfg : Config) (entry_order_ok : Bool)
    (tm : TradeManager) (signal : Signal) : TradeManager :=
  if tm.active_trade.isSome then tm
  else if tm.trading_stopped_for_day then tm
  else
    let entry_price := signal.entry_price
    let sl_price := signal.sl_price
    let quantity := calculate_quantity cfg tm.risk entry_price sl_price
    if quantity = 0 then tm
    else if entry_order_ok = false then tm
    else
      let initial_risk_per_share := entry_price - sl_price
      let target_price := entry_price + initial_risk_per_share * cfg.TARGET_RISK_REWARD
      { tm with
        active_trade := some
          { entry_price := entry_price
            initial_sl := sl_price
            current_sl := sl_price
            target_price := target_price
            quantity := quantity
            initial_risk_per_share := initial_risk_per_share
            timestamp := signal.timestamp }
        trailing_sl_activated := false }

/-- TradeManager.exit_trade.  exit_order_ok models whether the
synchronous sell order at the venue succeeds; on failure the state is
deliberately left untouched so the exit is retried on the next bar.
On success: PnL and R-multiple are realized into daily_r_pnl, capital
is updated through the ledger, the daily-drawdown guardrail may set the
halt flag, and the position and trailing flag are cleared. -/
def exit_trade (cfg : Config) (exit_order_ok : Bool) (tm : TradeManager)
    (timestamp : ℕ) (exit_price : ℚ) (reason : ExitReason) :
    TradeManager × Option ExitEvent :=
  match tm.active_trade with
  | none => (tm, none)
  | some t =>
    if exit_order_ok = false then (tm, none)
    else
      let pnl := (exit_price - t.entry_price) * (t.quantity : ℚ)
      let r_pnl := pnl / (t.initial_risk_per_share * (t.quantity : ℚ))
      let daily_r_pnl := tm.daily_r_pnl + r_pnl
      let risk := update_capital tm.risk (tm.risk.current_capital + pnl)
      let trading_stopped_for_day :=
        if daily_r_pnl ≤ cfg.MAX_DAILY_DRAWDOWN_R then true
        else tm.trading_stopped_for_day
      ({ active_trade := none
         trailing_sl_activated := false
         daily_r_pnl := daily_r_pnl
         trading_stopped_for_day := trading_stopped_for_day
         risk := risk },
       some { timestamp := timestamp, price := exit_price, reason := reason })

/-- TradeManager.check_and_manage_trade: per-bar management of the
active trade.  Step 1 checks the stop (exit and return); step 2 arms
the trailing stop when the bar high reaches the 5R target; step 3
ratchets the stop up to the bar low while armed. -/
def check_and_manage_trade (cfg : Config) (exit_order_ok : Bool)
    (tm : TradeManager) (current_candle : Candle) :
    TradeManager × Option ExitEvent :=
  match tm.active_trade with
  | none => (tm, none)
  | some t =>
    let low_price := current_candle.low
    let high_price := current_candle.high
    if low_price ≤ t.current_sl then
      exit_trade cfg exit_order_ok tm current_candle.timestamp t.current_sl .SL_HIT
    else
      let trailing_sl_activated :=
        tm.trailing_sl_activated || decide (high_price ≥ t.target_price)
      if trailing_sl_activated then
        let new_sl := low_price
        if new_sl > t.current_sl then
          ({ tm with
             trailing_sl_activated := trailing_sl_activated
             active_trade := some { t with current_sl := new_sl } }, none)
        else
          ({ tm with trailing_sl_activated := trailing_sl_activated }, none)
      else
        ({ tm with trailing_sl_activated := trailing_sl_activated }, none)

/-- TradeManager.handle_gap_down: at market open, if the session opens
strictly below the current stop of an active trade, exit immediately at
the opening price with reason GAP_DOWN_EXIT. -/
def handle_gap_down (cfg : Config) (exit_order_ok : Bool)
    (tm : TradeManager) (opening_price : ℚ) (timestamp : ℕ) :
    TradeManager × Option ExitEvent :=
  match tm.active_trade with
  | none => (tm, none)
  | some t =>
    if opening_price < t.current_sl then
      exit_trade cfg exit_order_ok tm timestamp opening_price .GAP_DOWN_EXIT
    else (tm, none)

/-- The per-bar control flow of process_candle_data (src/main.py):
manage the active trade first, then, if no trade is active, query the
strategy for a signal and enter on it.  The strategy is an oracle from
candles to optional signals; the returned Bool records whether
strategy.process_candle was queried on this bar. -/
def process_candle_data (cfg : Config) (order_ok : Bool)
    (strategy : Candle → Option Signal) (tm : TradeManager)
    (candle : Candle) : TradeManager × Bool :=
  let tm1 := (check_and_manage_trade cfg order_ok tm candle).1
  if tm1.active_trade.isNone then
    match strategy candle with
    | some signal => (enter_trade cfg order_ok tm1 signal, true)
    | none => (tm1, true)
  else (tm1, false)

/-- Successive check_and_manage_trade calls over a list of bars,
keeping only the evolving state. -/
def manage_seq (cfg : Config) (exit_order_ok : Bool)
    (tm : TradeManager) (candles : List Candle) : TradeManager :=
  candles.foldl (fun s c => (check_and_manage_trade cfg exit_order_ok s c).1) tm

/-- A sequence of capital updates applied to the ledger in order. -/
def update_seq (rm : RiskManager) (cs : List ℚ) : RiskManager :=
  cs.foldl update_capital rm

/-- The position-sizing formula exactly as the spec words it: the
risk-budget quantity min-ed with the capital-allocation quantity,
floored to a multiple of the lot size.  risk_pct and max_alloc_pct are
fractions here (2 percent is 2/100). -/
def size_spec (hw cur risk_pct max_alloc_pct e s : ℚ) (lot : ℤ) : ℤ :=
  ⌊min (hw * risk_pct / (e - s)) (cur * max_alloc_pct / e) / (lot : ℚ)⌋ * lot

/-- Sample position for concrete scenarios: long at 100, stop 90, 5R
target 150, one lot of quantity. -/
def tradeB : ActiveTrade :=
  { entry_price := 100
    initial_sl := 90
    current_sl := 90
    target_price := 150
    quantity := 50
    initial_risk_per_share := 10
    timestamp := 0 }

/-- Sample manager state holding tradeB with the trailing stop already
armed. -/
def tmB : TradeManager :=
  { active_trade := some tradeB
    trailing_sl_activated := true
    daily_r_pnl := 0
    trading_stopped_for_day := false
    risk := { current_capital := 100000, trailing_equity_high := 100000 } }

/-- Sample manager state holding tradeB, trailing stop not armed. -/
def tmB0 : TradeManager :=
  { tmB with trailing_sl_activated := false }

/-- Single-unit position used to exercise the daily-halt guardrail. -/
def tradeD : ActiveTrade :=
  { entry_price := 100
    initial_sl := 90
    current_sl := 90
    target_price := 150
    quantity := 1
    initial_risk_per_share := 10
    timestamp := 0 }

/-- Manager state one losing trade away from the daily drawdown floor:
daily R-PnL already at -1.6R. -/
def tmD : TradeManager :=
  { active_trade := some tradeD
    trailing_sl_activated := false
    daily_r_pnl := -(8/5)
    trading_stopped_for_day := false
    risk := { current_capital := 100000, trailing_equity_high := 100000 } }

/-- Position from spec Scenario C: current stop 21950. -/
def tradeC : ActiveTrade :=
  { entry_price := 22000
    initial_sl := 21950
    current_sl := 21950
    target_price := 22250
    quantity := 50
    initial_risk_per_share := 50
    timestamp := 0 }

/-- Manager state holding tradeC. -/
def tmC : TradeManager :=
  { active_trade := some tradeC
    trailing_sl_activated := false
    daily_r_pnl := 0
    trading_stopped_for_day := false
    risk := { current_capital := 100000, trailing_equity_high := 100000 } }

/-- Manager state with no position and the daily halt flag set. -/
def tmHalt : TradeManager :=
  { active_trade := none
    trailing_sl_activated := false
    daily_r_pnl := -3
    trading_stopped_for_day := true
    risk := { current_capital := 100000, trailing_equity_high := 100000 } }

/-- A strategy oracle that never produces a signal. -/
def stratNone : Candle → Option Signal := fun _ => none

/-- A sample entry signal: long at 100 with stop 90. -/
def sigD : Signal := { timestamp := 2, entry_price := 100, sl_price := 90 }

/-- Ledger state of spec Scenario A: current capital 100000 after a
drawdown from the 105000 high-water mark. -/
def rmA : RiskManager :=
  { current_capital := 100000, trailing_equity_high := 105000 }

/-!  ## Theorems  -/

theorem update_capital_high_le (rm : RiskManager) (c : ℚ) :
    rm.trailing_equity_high ≤ (update_capital rm c).trailing_equity_high := by
  simp only [update_capital]
  split
  · exact le_of_lt (by assumption)
  · exact le_rfl

theorem update_capital_current_le_high (rm : RiskManager) (c : ℚ) :
    (update_capital rm c).current_capital ≤ (update_capital rm c).trailing_equity_high := by
  simp only [update_capital]
  split
  · exact le_rfl
  · exact le_of_not_lt (by assumption)

theorem update_seq_high_le (rm : RiskManager) (cs : List ℚ) :
    rm.trailing_equity_high ≤ (update_seq rm cs).trailing_equity_high := by
  induction cs generalizing rm with
  | nil => exact le_rfl
  | cons c cs ih =>
    exact le_trans (update_capital_high_le rm c) (ih (update_capital rm c))

theorem update_seq_append (rm : RiskManager) (cs ds : List ℚ) :
    update_seq rm (cs ++ ds) = update_seq (update_seq rm cs) ds := by
  simp [update_seq, List.foldl_append]

/-- C4: for any sequence of capital updates, the high-water
(trailing equity high) figure is non-decreasing across the sequence,
and immediately after any update it dominates the current capital. -/
theorem high_water_monotone (rm : RiskManager) (cs ds : List ℚ) (c : ℚ) :
    (update_seq rm cs).trailing_equity_high ≤
        (update_seq rm (cs ++ ds)).trailing_equity_high ∧
      (update_capital (update_seq rm cs) c).current_capital ≤
        (update_capital (update_seq rm cs) c).trailing_equity_high := by
  constructor
  · rw [update_seq_append]
    exact update_seq_high_le (update_seq rm cs) ds
  · exact update_capital_current_le_high (update_seq rm cs) c

/-- C2: when the exit order submission fails, exit_trade returns with
the whole TradeManager state unchanged — the position stays in place,
and daily R-PnL, the capital ledger, the halt flag and the trailing
flag are untouched — so the next bar re-evaluates the same exit. -/
theorem exit_failure_preserves_state (cfg : Config) (tm : TradeManager)
    (timestamp : ℕ) (exit_price : ℚ) (reason : ExitReason) :
    exit_trade cfg false tm timestamp exit_price reason = (tm, none) := by
  cases h : tm.active_trade <;> simp [exit_trade, h]

/-- C10: on a successful exit of a position with nonzero quantity and
nonzero initial risk per share, the R-multiple added to the daily R-PnL
is (exit_price - entry_price) / initial_risk_per_share: the quantity
cancels out of pnl / (initial_risk_per_share * quantity). -/
theorem r_multiple_quantity_independent (cfg : Config) (tm : TradeManager)
    (t : ActiveTrade) (timestamp : ℕ) (exit_price : ℚ) (reason : ExitReason)
    (h : tm.active_trade = some t) (hq : 0 < t.quantity)
    (hr : t.initial_risk_per_share ≠ 0) :
    (exit_trade cfg true tm timestamp exit_price reason).1.daily_r_pnl =
      tm.daily_r_pnl + (exit_price - t.entry_price) / t.initial_risk_per_share := by
  have hq' : (t.quantity : ℚ) ≠ 0 := Int.cast_ne_zero.mpr (ne_of_gt hq)
  simp only [exit_trade, h]
  norm_num
  field_simp
  ring

/-- Witness for C10 at a concrete winning exit: quantity 50 plays no
role in the R accounting. -/
theorem r_multiple_quantity_independent_witness :
    (exit_trade defaultConfig true tmB0 3 120 ExitReason.SL_HIT).1.daily_r_pnl =
      tmB0.daily_r_pnl + (120 - tradeB.entry_price) / tradeB.initial_risk_per_share :=
  r_multiple_quantity_independent defaultConfig tmB0 tradeB 3 120 ExitReason.SL_HIT
    rfl (by decide) (by norm_num [tradeB])

/-- C3: for entry > stop > 0 (and a positive lot size), the computed
quantity is exactly the spec formula
min(high_water * risk_pct / (entry - stop), current * max_alloc_pct / entry)
floored to a multiple of the lot size; the percent configuration fields
enter as fractions of 100. -/
theorem sizer_matches_spec_formula (cfg : Config) (rm : RiskManager)
    (entry_price sl_price : ℚ) (h0 : 0 < sl_price) (hes : sl_price < entry_price)
    (hlot : 0 < cfg.NIFTY_LOT_SIZE) :
    calculate_quantity cfg rm entry_price sl_price =
      size_spec rm.trailing_equity_high rm.current_capital
        (cfg.RISK_PER_TRADE_PERCENT / 100) (cfg.MAX_CAPITAL_ALLOCATION_PERCENT / 100)
        entry_price sl_price cfg.NIFTY_LOT_SIZE := by
  have h1 : ¬entry_price ≤ sl_price := not_le.mpr hes
  have h2 : ¬entry_price - sl_price ≤ 0 := not_le.mpr (sub_pos.mpr hes)
  simp [calculate_quantity, size_spec, h1, h2, hlot]

/-- Witness for C3: spec Scenario A — capital 100000, high-water 105000,
risk 2 percent, entry 22050, stop 22000, lot 50, max-alloc 50 percent —
matches the spec formula and yields quantity 0. -/
theorem sizer_matches_spec_formula_witness :
    calculate_quantity defaultConfig rmA 22050 22000 =
        size_spec 105000 100000 (2 / 100) (50 / 100) 22050 22000 50 ∧
      calculate_quantity defaultConfig rmA 22050 22000 = 0 := by
  constructor
  · exact sizer_matches_spec_formula defaultConfig rmA 22050 22000 (by norm_num)
      (by norm_num) (by decide)
  · simp only [calculate_quantity, defaultConfig, rmA]
    norm_num [min_def]

/-- C9 counterexample: with a negative current capital the sizer can
return a negative quantity — at the deployed config (risk 2 percent,
alloc 50 percent, lot 50), current capital -100000, high-water 105000,
entry 22050, stop 22000, calculate_quantity returns -50, refuting the
claim that entry > stop > 0 alone guarantees a result >= 0. -/
theorem sizer_negative_on_negative_capital :
    calculate_quantity defaultConfig
        { current_capital := -100000, trailing_equity_high := 105000 } 22050 22000 =
        -50 ∧
      ¬0 ≤ calculate_quantity defaultConfig
        { current_capital := -100000, trailing_equity_high := 105000 } 22050 22000 := by
  have h : calculate_quantity defaultConfig
      { current_capital := -100000, trailing_equity_high := 105000 } 22050 22000 = -50 := by
    simp only [calculate_quantity, defaultConfig]
    norm_num [min_def]
  exact ⟨h, by rw [h]; norm_num⟩

/-- C9 amended: for entry > stop > 0 the quantity is a multiple of the
lot size unconditionally, and is nonnegative whenever the ledger
figures and the configured percentages are nonnegative; entry <= stop
always yields 0; a nonpositive lot size always yields 0. -/
theorem sizer_nonneg_lot_multiple (cfg : Config) (rm : RiskManager)
    (entry_price sl_price : ℚ) :
    (0 < sl_price → sl_price < entry_price →
      cfg.NIFTY_LOT_SIZE ∣ calculate_quantity cfg rm entry_price sl_price) ∧
    (0 < sl_price → sl_price < entry_price →
      0 ≤ rm.current_capital → 0 ≤ rm.trailing_equity_high →
      0 ≤ cfg.RISK_PER_TRADE_PERCENT → 0 ≤ cfg.MAX_CAPITAL_ALLOCATION_PERCENT →
      0 ≤ calculate_quantity cfg rm entry_price sl_price) ∧
    (entry_price ≤ sl_price → calculate_quantity cfg rm entry_price sl_price = 0) ∧
    (cfg.NIFTY_LOT_SIZE ≤ 0 → calculate_quantity cfg rm entry_price sl_price = 0) := by
  refine ⟨fun _ hes => ?_, fun _ hes hc hh hrp hap => ?_, fun hle => ?_, fun hlot => ?_⟩
  · have h1 : ¬entry_price ≤ sl_price := not_le.mpr hes
    have h2 : ¬entry_price - sl_price ≤ 0 := not_le.mpr (sub_pos.mpr hes)
    simp only [calculate_quantity, h1, h2, if_false]
    split
    · exact dvd_mul_left _ _
    · exact dvd_zero _
  · have h1 : ¬entry_price ≤ sl_price := not_le.mpr hes
    have hd : 0 < entry_price - sl_price := sub_pos.mpr hes
    have h2 : ¬entry_price - sl_price ≤ 0 := not_le.mpr hd
    have he : 0 < entry_price := lt_trans (by assumption) hes
    simp only [calculate_quantity, h1, h2, if_false]
    split
    · rename_i hlot
      have hqr : 0 ≤ rm.trailing_equity_high * (cfg.RISK_PER_TRADE_PERCENT / 100) /
          (entry_price - sl_price) :=
        div_nonneg (mul_nonneg hh (div_nonneg hrp (by norm_num))) (le_of_lt hd)
      have hqc : 0 ≤ rm.current_capital * (cfg.MAX_CAPITAL_ALLOCATION_PERCENT / 100) /
          entry_price :=
        div_nonneg (mul_nonneg hc (div_nonneg hap (by norm_num))) (le_of_lt he)
      have hmin : (0:ℚ) ≤ min _ _ := le_min hqr hqc
      have hfloor : 0 ≤ ⌊min (rm.trailing_equity_high * (cfg.RISK_PER_TRADE_PERCENT / 100) /
          (entry_price - sl_price))
          (rm.current_capital * (cfg.MAX_CAPITAL_ALLOCATION_PERCENT / 100) / entry_price) /
          (cfg.NIFTY_LOT_SIZE : ℚ)⌋ :=
        Int.floor_nonneg.mpr (div_nonneg hmin (by exact_mod_cast le_of_lt hlot))
      exact mul_nonneg hfloor (le_of_lt hlot)
    · exact le_rfl
  · simp [calculate_quantity, hle]
  · have h3 : ¬cfg.NIFTY_LOT_SIZE > 0 := not_lt.mpr hlot
    simp only [calculate_quantity, h3, if_false]
    split <;> simp

/-- Witness for C9 at Scenario A numbers: lot 50 divides the result,
the result is nonnegative, a crossed entry/stop yields 0, and a config
with lot size 0 yields 0. -/
theorem sizer_nonneg_lot_multiple_witness :
    (defaultConfig.NIFTY_LOT_SIZE ∣ calculate_quantity defaultConfig rmA 22050 22000) ∧
      0 ≤ calculate_quantity defaultConfig rmA 22050 22000 ∧
      calculate_quantity defaultConfig rmA 22000 22050 = 0 ∧
      calculate_quantity { defaultConfig with NIFTY_LOT_SIZE := 0 } rmA 22050 22000 = 0 := by
  refine ⟨?_, ?_, ?_, ?_⟩
  · exact (sizer_nonneg_lot_multiple defaultConfig rmA 22050 22000).1
      (by norm_num) (by norm_num)
  · exact (sizer_nonneg_lot_multiple defaultConfig rmA 22050 22000).2.1
      (by norm_num) (by norm_num) (by norm_num [rmA]) (by norm_num [rmA])
      (by norm_num [defaultConfig]) (by norm_num [defaultConfig])
  · exact (sizer_nonneg_lot_multiple defaultConfig rmA 22000 22050).2.2.1 (by norm_num)
  · exact (sizer_nonneg_lot_multiple { defaultConfig with NIFTY_LOT_SIZE := 0 }
      rmA 22050 22000).2.2.2 (by norm_num [defaultConfig])

/-- C1: per-bar management while a position is active is exclusive —
if the bar low is at or under the current stop, the bar produces a
stop exit at the current stop (reason SL_HIT, the spec's STOP_HIT) and
neither arming nor ratcheting happens (the position and trailing flag
are cleared by the exit); otherwise no exit happens on the bar and the
position survives. -/
theorem stop_hit_precedence (cfg : Config) (tm : TradeManager) (t : ActiveTrade)
    (c : Candle) (h : tm.active_trade = some t) :
    (c.low ≤ t.current_sl →
      (check_and_manage_trade cfg true tm c).2 =
          some { timestamp := c.timestamp, price := t.current_sl,
                 reason := ExitReason.SL_HIT } ∧
        (check_and_manage_trade cfg true tm c).1.active_trade = none ∧
        (check_and_manage_trade cfg true tm c).1.trailing_sl_activated = false) ∧
    (t.current_sl < c.low → ∀ exit_order_ok,
      (check_and_manage_trade cfg exit_order_ok tm c).2 = none ∧
        (check_and_manage_trade cfg exit_order_ok tm c).1.active_trade.isSome = true) := by
  constructor
  · intro hle
    simp [check_and_manage_trade, h, hle, exit_trade]
  · intro hlt ok
    have hnle : ¬c.low ≤ t.current_sl := not_le.mpr hlt
    simp only [check_and_manage_trade, h, hnle, if_false]
    split_ifs <;> simp [h]

/-- Witness for C1: with the stop at 90 and a bar low of 85, the bar
exits at 90 with reason SL_HIT; with a bar low of 95 no exit fires. -/
theorem stop_hit_precedence_witness :
    ((check_and_manage_trade defaultConfig true tmB0
          { timestamp := 2, low := 85, high := 100 }).2 =
        some { timestamp := 2, price := tradeB.current_sl,
               reason := ExitReason.SL_HIT } ∧
      (check_and_manage_trade defaultConfig true tmB0
          { timestamp := 2, low := 85, high := 100 }).1.active_trade = none ∧
      (check_and_manage_trade defaultConfig true tmB0
          { timestamp := 2, low := 85, high := 100 }).1.trailing_sl_activated = false) ∧
    ((check_and_manage_trade defaultConfig true tmB0
          { timestamp := 2, low := 95, high := 100 }).2 = none ∧
      (check_and_manage_trade defaultConfig true tmB0
          { timestamp := 2, low := 95, high := 100 }).1.active_trade.isSome = true) :=
  ⟨(stop_hit_precedence defaultConfig tmB0 tradeB
      { timestamp := 2, low := 85, high := 100 } rfl).1 (by decide),
   (stop_hit_precedence defaultConfig tmB0 tradeB
      { timestamp := 2, low := 95, high := 100 } rfl).2 (by decide) true⟩

theorem manage_inactive (cfg : Config) (ok : Bool) (tm : TradeManager) (c : Candle)
    (h : tm.active_trade = none) :
    check_and_manage_trade cfg ok tm c = (tm, none) := by
  simp [check_and_manage_trade, h]

theorem manage_step_sl_le (cfg : Config) (ok : Bool) (tm : TradeManager)
    (c : Candle) (t t' : ActiveTrade) (h : tm.active_trade = some t)
    (h' : (check_and_manage_trade cfg ok tm c).1.active_trade = some t') :
    t.current_sl ≤ t'.current_sl := by
  by_cases hle : c.low ≤ t.current_sl
  · cases ok with
    | true => simp [check_and_manage_trade, exit_trade, h, hle] at h'
    | false =>
      simp [check_and_manage_trade, exit_trade, h, hle] at h'
      rw [h'.symm]
  · simp only [check_and_manage_trade, h, hle, if_false] at h'
    split_ifs at h' with h1 h2
    · rw [Option.some_inj] at h'
      rw [← h']
      exact le_of_lt h2
    · simp only [h, Option.some_inj] at h'
      rw [← h']
    · simp only [h, Option.some_inj] at h'
      rw [← h']

theorem manage_seq_inactive (cfg : Config) (ok : Bool) (tm : TradeManager)
    (cs : List Candle) (h : tm.active_trade = none) :
    manage_seq cfg ok tm cs = tm := by
  induction cs with
  | nil => rfl
  | cons c cs ih =>
    show manage_seq cfg ok (check_and_manage_trade cfg ok tm c).1 cs = tm
    rw [manage_inactive cfg ok tm c h]
    exact ih

theorem manage_seq_sl_le (cfg : Config) (ok : Bool) (tm : TradeManager)
    (cs : List Candle) (t t' : ActiveTrade) (h : tm.active_trade = some t)
    (h' : (manage_seq cfg ok tm cs).active_trade = some t') :
    t.current_sl ≤ t'.current_sl := by
  induction cs generalizing tm t with
  | nil =>
    simp only [manage_seq, List.foldl_nil] at h'
    rw [h, Option.some_inj] at h'
    rw [h']
  | cons c cs ih =>
    have hstep : manage_seq cfg ok tm (c :: cs) =
        manage_seq cfg ok (check_and_manage_trade cfg ok tm c).1 cs := rfl
    rw [hstep] at h'
    cases h1 : (check_and_manage_trade cfg ok tm c).1.active_trade with
    | none =>
      rw [manage_seq_inactive cfg ok _ cs h1] at h'
      rw [h1] at h'
      exact absurd h' (by simp)
    | some t1 =>
      exact le_trans (manage_step_sl_le cfg ok tm c t t1 h h1) (ih _ t1 h1 h')

theorem manage_armed_ratchet (cfg : Config) (ok : Bool) (tm : TradeManager)
    (c : Candle) (t : ActiveTrade) (h : tm.active_trade = some t)
    (harm : tm.trailing_sl_activated = true) (hlt : t.current_sl < c.low) :
    (check_and_manage_trade cfg ok tm c).1.active_trade =
      some { t with current_sl := max t.current_sl c.low } := by
  have hnle : ¬c.low ≤ t.current_sl := not_le.mpr hlt
  simp [check_and_manage_trade, h, hnle, harm, hlt, max_eq_right (le_of_lt hlt)]

/-- C5: the current stop of an active position never decreases — not on
a single manage call, not across any sequence of manage calls — and
while the trailing stop is armed the only update is to
max(current_stop, bar.low). -/
theorem stop_monotone (cfg : Config) (ok : Bool) (tm : TradeManager)
    (t : ActiveTrade) (c : Candle) (cs : List Candle) :
    (∀ t', tm.active_trade = some t →
      (check_and_manage_trade cfg ok tm c).1.active_trade = some t' →
      t.current_sl ≤ t'.current_sl) ∧
    (tm.active_trade = some t → tm.trailing_sl_activated = true →
      t.current_sl < c.low →
      (check_and_manage_trade cfg ok tm c).1.active_trade =
        some { t with current_sl := max t.current_sl c.low }) ∧
    (∀ t', tm.active_trade = some t →
      (manage_seq cfg ok tm cs).active_trade = some t' →
      t.current_sl ≤ t'.current_sl) :=
  ⟨fun t' h h' => manage_step_sl_le cfg ok tm c t t' h h',
   fun h harm hlt => manage_armed_ratchet cfg ok tm c t h harm hlt,
   fun t' h h' => manage_seq_sl_le cfg ok tm cs t t' h h'⟩

/-- Witness for C5, spec Scenario B shape: armed position with stop 90,
bar low 95 ratchets the stop to max(90, 95) = 95, and across a two-bar
sequence the stop only climbs (95 then 96), never decreasing. -/
theorem stop_monotone_witness :
    tradeB.current_sl ≤
        ({ tradeB with current_sl := 95 } : ActiveTrade).current_sl ∧
      (check_and_manage_trade defaultConfig true tmB
          { timestamp := 1, low := 95, high := 160 }).1.active_trade =
        some { tradeB with current_sl := max tradeB.current_sl 95 } ∧
      tradeB.current_sl ≤
        ({ tradeB with current_sl := 96 } : ActiveTrade).current_sl :=
  ⟨(stop_monotone defaultConfig true tmB tradeB
      { timestamp := 1, low := 95, high := 160 } []).1
      { tradeB with current_sl := 95 } rfl (by decide),
   (stop_monotone defaultConfig true tmB tradeB
      { timestamp := 1, low := 95, high := 160 } []).2.1 rfl rfl (by decide),
   (stop_monotone defaultConfig true tmB tradeB
      { timestamp := 1, low := 95, high := 160 }
      [{ timestamp := 1, low := 95, high := 160 },
       { timestamp := 2, low := 96, high := 170 }]).2.2
      { tradeB with current_sl := 96 } rfl (by decide)⟩

theorem enter_trade_halted (cfg : Config) (ok : Bool) (tm : TradeManager)
    (signal : Signal) (h : tm.trading_stopped_for_day = true) :
    enter_trade cfg ok tm signal = tm := by
  simp [enter_trade, h]

/-- C6: once an exit pushes the daily R-PnL to or below the configured
drawdown floor the halt flag is set; while the flag is set every
enter_trade call is a no-op leaving the state (including the flag)
untouched; day_reset clears the flag (and the position). -/
theorem daily_halt_blocks_entry (cfg : Config) (ok : Bool)
    (tm tmx : TradeManager) (t : ActiveTrade) (signal : Signal)
    (timestamp : ℕ) (exit_price : ℚ) (reason : ExitReason) :
    (tmx.trading_stopped_for_day = true → enter_trade cfg ok tmx signal = tmx) ∧
    (tm.active_trade = some t →
      (exit_trade cfg true tm timestamp exit_price reason).1.daily_r_pnl ≤
        cfg.MAX_DAILY_DRAWDOWN_R →
      (exit_trade cfg true tm timestamp exit_price reason).1.trading_stopped_for_day =
        true) ∧
    ((day_reset tmx).trading_stopped_for_day = false ∧
      (day_reset tmx).active_trade = none) := by
  refine ⟨fun h => enter_trade_halted cfg ok tmx signal h, fun h hle => ?_, rfl, rfl⟩
  simp [exit_trade, h] at hle ⊢
  exact Or.inl hle

/-- Witness for C6, spec Scenario D shape: daily R-PnL at -1.6R, a -1R
exit lands at -2.6R ≤ -2.5R and sets the halt flag; an enter_trade call
on a halted state is the identity; day_reset clears the flag. -/
theorem daily_halt_blocks_entry_witness :
    (exit_trade defaultConfig true tmD 1 90 ExitReason.SL_HIT).1.trading_stopped_for_day =
        true ∧
      enter_trade defaultConfig true tmHalt sigD = tmHalt ∧
      (day_reset tmHalt).trading_stopped_for_day = false :=
  ⟨(daily_halt_blocks_entry defaultConfig true tmD tmHalt tradeD sigD 1 90
      ExitReason.SL_HIT).2.1 rfl
      (by simp [exit_trade, tmD, tradeD, defaultConfig]; norm_num),
   (daily_halt_blocks_entry defaultConfig true tmD tmHalt tradeD sigD 1 90
      ExitReason.SL_HIT).1 rfl,
   (daily_halt_blocks_entry defaultConfig true tmD tmHalt tradeD sigD 1 90
      ExitReason.SL_HIT).2.2.1⟩

/-- C7: if the session opens strictly below the current stop of an
active position, handle_gap_down exits immediately at the opening
price (not at the stop) with reason GAP_DOWN_EXIT. -/
theorem gap_down_exit_at_open (cfg : Config) (tm : TradeManager)
    (t : ActiveTrade) (opening_price : ℚ) (timestamp : ℕ)
    (h : tm.active_trade = some t) (hgap : opening_price < t.current_sl) :
    (handle_gap_down cfg true tm opening_price timestamp).2 =
        some { timestamp := timestamp, price := opening_price,
               reason := ExitReason.GAP_DOWN_EXIT } ∧
      (handle_gap_down cfg true tm opening_price timestamp).1.active_trade = none := by
  simp [handle_gap_down, exit_trade, h, hgap]

/-- Witness for C7, spec Scenario C: stop at 21950, session reopens at
21900 — the exit price is the 21900 open, not the 21950 stop. -/
theorem gap_down_exit_at_open_witness :
    (handle_gap_down defaultConfig true tmC 21900 5).2 =
        some { timestamp := 5, price := 21900,
               reason := ExitReason.GAP_DOWN_EXIT } ∧
      (handle_gap_down defaultConfig true tmC 21900 5).1.active_trade = none :=
  gap_down_exit_at_open defaultConfig tmC tradeC 21900 5 rfl (by decide)

/-- C8 counterexample: a halted state with no active position still
queries the Signal Source on the next bar — process_candle_data's
query condition checks only that no trade is active, not the halt
flag, so the claim that the Signal Source is never queried while
HALTED is false on this input. -/
theorem signal_queried_while_halted :
    tmHalt.trading_stopped_for_day = true ∧
      (process_candle_data defaultConfig true stratNone tmHalt
        { timestamp := 1, low := 22000, high := 22100 }).2 = true :=
  ⟨rfl, rfl⟩

/-- C8 amended: on each bar the Signal Source is queried exactly when
no position is active after managing, regardless of the halt flag;
while halted the query still happens but entry is a no-op, so the bar
leaves the managed state unchanged. -/
theorem query_iff_no_active (cfg : Config) (ok : Bool)
    (strategy : Candle → Option Signal) (tm : TradeManager) (c : Candle) :
    ((process_candle_data cfg ok strategy tm c).2 =
        (check_and_manage_trade cfg ok tm c).1.active_trade.isNone) ∧
    ((check_and_manage_trade cfg ok tm c).1.trading_stopped_for_day = true →
      (process_candle_data cfg ok strategy tm c).1 =
        (check_and_manage_trade cfg ok tm c).1) := by
  constructor
  · simp only [process_candle_data]
    split
    · rename_i h1
      split <;> simp [h1]
    · rename_i h1
      have h2 : (check_and_manage_trade cfg ok tm c).1.active_trade.isNone = false := by
        cases hv : (check_and_manage_trade cfg ok tm c).1.active_trade.isNone
        · rfl
        · exact absurd hv h1
      simp [h2]
  · intro hh
    simp only [process_candle_data]
    split
    · split
      · exact enter_trade_halted cfg ok _ _ hh
      · rfl
    · rfl

/-- Witness for C8 amended, at the counterexample input: the query
flag equals the no-active-position condition, and the halted state
passes through the bar unchanged apart from management. -/
theorem query_iff_no_active_witness :
    ((process_candle_data defaultConfig true stratNone tmHalt
        { timestamp := 1, low := 22000, high := 22100 }).2 =
      (check_and_manage_trade defaultConfig true tmHalt
        { timestamp := 1, low := 22000, high := 22100 }).1.active_trade.isNone) ∧
    ((process_candle_data defaultConfig true stratNone tmHalt
        { timestamp := 1, low := 22000, high := 22100 }).1 =
      (check_and_manage_trade defaultConfig true tmHalt
        { timestamp := 1, low := 22000, high := 22100 }).1) :=
  ⟨(query_iff_no_active defaultConfig true stratNone tmHalt
      { timestamp := 1, low := 22000, high := 22100 }).1,
   (query_iff_no_active defaultConfig true stratNone tmHalt
      { timestamp := 1, low := 22000, high := 22100 }).2 rfl⟩

end Breakout
